import Mathlib

/-!
# Verification of the storyboard task controller

A shallow embedding of `storyboard/api/v1/tasks.py` (the `TasksController`
REST controller) and the relevant part of `storyboard/common/exception.py`.

The controller's collaborators — the persistence API
(`task_get`, `task_get_all`, `task_get_count`, `task_create`, `task_delete`)
and the event-sink API (the `*_event` emitters) — are external to the
repository; they are modelled from the specification and are marked as such.
The controller bodies themselves are translated statement by statement from
the source.
-/

namespace Storyboard

/-- The `Task` resource of `tasks.py` (class `Task`): numeric id, title,
status, active flag, creator/story/project associations, optional assignee,
priority.  Mirrors the field list of the wsme type. -/
structure Task where
  id : Int
  title : String
  status : String
  is_active : Bool
  creator_id : Int
  story_id : Int
  project_id : Int
  assignee_id : Option Int
  priority : String
deriving DecidableEq, Repr

/-- The persistence layer's state: the rows of the task table. -/
abbrev Store := List Task

/-- Global configuration consumed by `get_all` (`CONF.page_size_maximum`,
`CONF.page_size_default`). -/
structure Conf where
  page_size_maximum : Int
  page_size_default : Int
deriving DecidableEq, Repr

/-- Modelled from the spec: the persistence API's `task_get`, which resolves
an id to the stored task with that id, or to nothing when the id is absent. -/
def task_get (store : Store) (i : Int) : Option Task :=
  List.find? (fun t => t.id == i) store

/-- Modelled from the spec: does a row pass the `story_id` / `assignee_id`
filters of the list query?  An absent filter passes everything. -/
def matchesFilters (story_id assignee_id : Option Int) (t : Task) : Bool :=
  (match story_id with
   | none => true
   | some s => t.story_id == s) &&
  (match assignee_id with
   | none => true
   | some a => t.assignee_id == some a)

/-- Modelled from the spec: the sort key of a row for a given `sort_field`
(an integer field, a string field, or — for an unknown field — the id). -/
def fieldKey (field : String) (t : Task) : Option Int × Option String :=
  match field with
  | "id" => (some t.id, none)
  | "title" => (none, some t.title)
  | "status" => (none, some t.status)
  | "creator_id" => (some t.creator_id, none)
  | "story_id" => (some t.story_id, none)
  | "project_id" => (some t.project_id, none)
  | "assignee_id" => (t.assignee_id, none)
  | "priority" => (none, some t.priority)
  | _ => (some t.id, none)

/-- Comparison of two sort keys (integer keys compare as integers, string
keys as strings). -/
def keyLe : Option Int × Option String → Option Int × Option String → Bool
  | (some a, _), (some b, _) => decide (a ≤ b)
  | (_, some a), (_, some b) => decide (a ≤ b)
  | _, _ => true

/-- Modelled from the spec: ordering of rows by `sort_field`, then by id for
stability, ascending. -/
def taskLeAsc (field : String) (a b : Task) : Bool :=
  if fieldKey field a = fieldKey field b then decide (a.id ≤ b.id)
  else keyLe (fieldKey field a) (fieldKey field b)

/-- Insert a task into a list sorted by `le`. -/
def insertSorted (le : Task → Task → Bool) (t : Task) : List Task → List Task
  | [] => [t]
  | x :: xs => if le t x then t :: x :: xs else x :: insertSorted le t xs

/-- Insertion sort by `le`. -/
def sortByLe (le : Task → Task → Bool) : List Task → List Task
  | [] => []
  | x :: xs => insertSorted le x (sortByLe le xs)

/-- Modelled from the spec: the persistence API's `task_get_all`.  Rows are
filtered by `story_id` / `assignee_id`, ordered by `sort_field` then id in
the requested direction, cut at the (already resolved) marker task — an
exclusive bound — and truncated to `limit` rows. -/
def task_get_all (store : Store) (marker : Option Task) (limit : Int)
    (assignee_id story_id : Option Int) (sort_field sort_dir : String) :
    List Task :=
  let filtered := List.filter (matchesFilters story_id assignee_id) store
  let asc := sortByLe (taskLeAsc sort_field) filtered
  let ordered := if sort_dir == "desc" then asc.reverse else asc
  let page :=
    match marker with
    | none => ordered
    | some m => (ordered.dropWhile (fun (t : Task) => !(t.id == m.id))).drop 1
  page.take limit.toNat

/-- Modelled from the spec: the persistence API's `task_get_count`, which
counts every row matching the `story_id` / `assignee_id` filters (pagination
plays no part). -/
def task_get_count (store : Store) (assignee_id story_id : Option Int) :
    Nat :=
  (List.filter (matchesFilters story_id assignee_id) store).length

/-- What `get_all` produces: the page body plus the `X-Limit`, `X-Total`
and `X-Marker` response headers (`X-Marker` only when a marker was
honored). -/
structure QueryResult where
  tasks : List Task
  xLimit : Int
  xTotal : Nat
  xMarker : Option Int
deriving DecidableEq, Repr

/-- `TasksController.get_all`, translated statement by statement:
clamp the limit (`min(CONF.page_size_maximum, max(1, limit))`, with the
configured default substituted first when no limit is supplied); resolve the
marker id and discard it when it resolves to nothing or to a task whose
`story_id` differs from the `story_id` filter; query the page and the total
count; set the response headers. -/
def get_all (conf : Conf) (store : Store)
    (story_id assignee_id marker limit : Option Int)
    (sort_field sort_dir : String) : QueryResult :=
  let limit0 :=
    match limit with
    | none => conf.page_size_default
    | some l => l
  let limit1 := min conf.page_size_maximum (max 1 limit0)
  let marker_task0 :=
    match marker with
    | none => none
    | some m => task_get store m
  let marker_task :=
    match marker_task0 with
    | none => none
    | some t => if (some t.story_id : Option Int) ≠ story_id then none
                else some t
  let tasks := task_get_all store marker_task limit1 assignee_id story_id
    sort_field sort_dir
  let task_count := task_get_count store assignee_id story_id
  { tasks := tasks
    xLimit := limit1
    xTotal := task_count
    xMarker := Option.map (fun t => t.id) marker_task }

/-- The timeline events the controller can emit, one constructor per
`events_api` emitter it calls, with exactly the keyword arguments the source
passes. -/
inductive Event
  | status_changed (story_id : Int) (task_title : String) (author_id : Int)
      (old_status new_status : String)
  | priority_changed (story_id : Int) (task_title : String) (author_id : Int)
      (old_priority new_priority : String)
  | assignee_changed (story_id : Int) (task_title : String) (author_id : Int)
      (old_assignee_id new_assignee_id : Option Int)
  | details_changed (story_id : Int) (task_title : String) (author_id : Int)
  | task_created (story_id : Int) (task_title : String) (author_id : Int)
  | task_deleted (story_id : Int) (task_title : String) (author_id : Int)
deriving DecidableEq, Repr

/-- `TasksController._post_timeline_events`, translated statement by
statement: compare status, then priority, then assignee_id, appending one
event per difference and raising the `specific_change` flag; when the flag
stays down, emit the single generic details-changed event instead.
The result is the ordered sequence of events handed to the event sink. -/
def post_timeline_events (author_id : Int) (original_task updated_task : Task) :
    List Event :=
  let events0 : List Event := []
  let specific0 := false
  let events1 :=
    if original_task.status ≠ updated_task.status then
      events0 ++ [Event.status_changed original_task.story_id
        original_task.title author_id original_task.status
        updated_task.status]
    else events0
  let specific1 :=
    if original_task.status ≠ updated_task.status then true else specific0
  let events2 :=
    if original_task.priority ≠ updated_task.priority then
      events1 ++ [Event.priority_changed original_task.story_id
        original_task.title author_id original_task.priority
        updated_task.priority]
    else events1
  let specific2 :=
    if original_task.priority ≠ updated_task.priority then true
    else specific1
  let events3 :=
    if original_task.assignee_id ≠ updated_task.assignee_id then
      events2 ++ [Event.assignee_changed original_task.story_id
        original_task.title author_id original_task.assignee_id
        updated_task.assignee_id]
    else events2
  let specific3 :=
    if original_task.assignee_id ≠ updated_task.assignee_id then true
    else specific2
  if !specific3 then
    events3 ++ [Event.details_changed original_task.story_id
      original_task.title author_id]
  else events3

/-- Modelled from the spec: the persistence API's `task_create`, which
stores the supplied fields under a fresh store-assigned id and returns the
created row. -/
def task_create (store : Store) (t : Task) : Task × Store :=
  let newId := (store.map (fun r => r.id)).foldl max 0 + 1
  let created := { t with id := newId }
  (created, store ++ [created])

/-- Modelled from the spec: the persistence API's `task_delete`, which
removes the row with the given id from the store. -/
def task_delete (store : Store) (i : Int) : Store :=
  List.filter (fun t => !(t.id == i)) store

/-- `TasksController.post`, translated statement by statement: overwrite the
body's `creator_id` with the authenticated user's id, create the row, emit
the creation event (with the body's `story_id` and the created row's title),
and return the created row.  Result: the created task, the new store, and
the emitted events. -/
def post (current_user_id : Int) (store : Store) (task : Task) :
    Task × Store × List Event :=
  let task1 := { task with creator_id := current_user_id }
  let createdPair := task_create store task1
  let created_task := createdPair.1
  let ev := Event.task_created task1.story_id created_task.title
    current_user_id
  (created_task, createdPair.2, [ev])

/-- An observable effect of the delete handler on its collaborators, in the
order the handler performs them: an event emission, or the persistence
delete. -/
inductive Effect
  | emit (e : Event)
  | dbDelete (task_id : Int)
deriving DecidableEq, Repr

/-- `TasksController.delete`, translated statement by statement: fetch the
task, emit the deletion event from the fetched snapshot's `story_id` and
title, then delete the row, then set status 204.  The unconditional
attribute reads `original_task.story_id` / `original_task.title` mean the
handler is undefined (an attribute error on `None`, not a handled error
response) when the id does not resolve: that case is `none`.  Otherwise the
result is the ordered effect trace, the store afterwards, and the response
status code. -/
def delete (current_user_id : Int) (store : Store) (task_id : Int) :
    Option (List Effect × Store × Nat) :=
  match task_get store task_id with
  | none => none
  | some original_task =>
    let ev := Event.task_deleted original_task.story_id original_task.title
      current_user_id
    some ([Effect.emit ev, Effect.dbDelete task_id],
      task_delete store task_id, 204)

/-- A client-facing error as raised by the controller (`ClientSideError`):
a message and an HTTP status code. -/
structure ApiError where
  message : String
  status_code : Int
deriving DecidableEq, Repr

/-- `TasksController.get_one`, translated statement by statement: fetch the
task; return it when the store resolves the id, otherwise raise a
client-side error with status 404.  (The source's message interpolates the
`id` builtin — the text is not modelled beyond being a fixed string.) -/
def get_one (store : Store) (task_id : Int) : Except ApiError Task :=
  match task_get store task_id with
  | some task => Except.ok task
  | none =>
    Except.error { message := "Task %s not found", status_code := 404 }

/-- A `StoryboardException` of `storyboard/common/exception.py`: a message
and the HTTP status code it carries to the client. -/
structure StoryboardException where
  msg : Option String
  status_code : Option Int
deriving DecidableEq, Repr

/-- The `NotFound` exception constructor of `exception.py`: whatever message
is supplied, it always passes status code 404 to the base constructor. -/
def NotFound (message : Option String) : StoryboardException :=
  { msg := message, status_code := some 404 }

/-- C1: when the supplied marker id resolves to an existing task whose
`story_id` differs from the requested `story_id` filter, the marker is
discarded silently: the whole result — page body and `X-Limit`, `X-Total`,
`X-Marker` headers — equals that of the same call with no marker, and no
error is raised (`get_all` is a total function). -/
theorem get_all_foreign_marker_discarded (conf : Conf) (store : Store)
    (story_id assignee_id limit : Option Int) (m : Int) (t : Task)
    (sort_field sort_dir : String)
    (hres : task_get store m = some t)
    (hdiff : (some t.story_id : Option Int) ≠ story_id) :
    get_all conf store story_id assignee_id (some m) limit sort_field
        sort_dir
      = get_all conf store story_id assignee_id none limit sort_field
        sort_dir := by
  simp [get_all, hres, hdiff]

/-- Witness for C1 at a concrete input: a store holding one task with
`story_id = 5`, a filter requesting `story_id = 9`, and that task's id as
marker. -/
theorem get_all_foreign_marker_discarded_witness :
    get_all ⟨10, 10⟩ [⟨1, "a", "todo", true, 1, 5, 1, none, "medium"⟩]
        (some 9) none (some 1) none "id" "asc"
      = get_all ⟨10, 10⟩ [⟨1, "a", "todo", true, 1, 5, 1, none, "medium"⟩]
        (some 9) none none none "id" "asc" :=
  get_all_foreign_marker_discarded ⟨10, 10⟩
    [⟨1, "a", "todo", true, 1, 5, 1, none, "medium"⟩]
    (some 9) none none 1 ⟨1, "a", "todo", true, 1, 5, 1, none, "medium"⟩
    "id" "asc" rfl (by decide)

/-- C2 counterexample: with `page_size_maximum = 50` and
`page_size_default = 100`, a call that supplies no limit reports effective
limit 50, not the configured default 100 — the source clamps the default
through `min(maximum, max(1, ...))` as well. -/
theorem get_all_default_limit_counterexample :
    (get_all ⟨50, 100⟩ [] none none none none "id" "asc").xLimit = 50 ∧
      (50 : Int) ≠ 100 := by
  exact ⟨rfl, by decide⟩

/-- C2 (amended): the effective limit always equals
`min(page_size_maximum, max(1, x))`, where `x` is the supplied limit when
one is supplied and the configured default otherwise — i.e. the default is
itself passed through the same clamp, and a supplied limit is clamped to
`[1, maximum]` whenever `maximum ≥ 1`.  No error is raised for an
out-of-range limit (`get_all` is total). -/
theorem get_all_effective_limit (conf : Conf) (store : Store)
    (story_id assignee_id marker : Option Int) (l : Int)
    (sort_field sort_dir : String) :
    (get_all conf store story_id assignee_id marker none sort_field
        sort_dir).xLimit
        = min conf.page_size_maximum (max 1 conf.page_size_default) ∧
      (get_all conf store story_id assignee_id marker (some l) sort_field
        sort_dir).xLimit
        = min conf.page_size_maximum (max 1 l) := by
  exact ⟨rfl, rfl⟩

/-- C3: for fixed `story_id` / `assignee_id` filters, the `X-Total` count is
the same for every choice of limit and marker: it is computed by
`task_get_count` from the filters alone. -/
theorem get_all_total_count_invariant (conf : Conf) (store : Store)
    (story_id assignee_id m1 m2 l1 l2 : Option Int)
    (sort_field sort_dir : String) :
    (get_all conf store story_id assignee_id m1 l1 sort_field
        sort_dir).xTotal
      = (get_all conf store story_id assignee_id m2 l2 sort_field
        sort_dir).xTotal := by
  rfl

/-- C4: when none of status, priority and assignee_id differ (whatever the
untracked fields do), the event mapper emits exactly one event, the generic
details-changed event, and no tracked-field event. -/
theorem post_timeline_events_details_changed (author_id : Int)
    (o u : Task) (hs : o.status = u.status) (hp : o.priority = u.priority)
    (ha : o.assignee_id = u.assignee_id) :
    post_timeline_events author_id o u
      = [Event.details_changed o.story_id o.title author_id] := by
  simp [post_timeline_events, hs, hp, ha]

/-- Witness for C4 at a concrete input: original and updated differ only in
the (untracked) title. -/
theorem post_timeline_events_details_changed_witness :
    post_timeline_events 42 ⟨7, "old", "todo", true, 1, 3, 2, none, "low"⟩
        ⟨7, "new", "todo", true, 1, 3, 2, none, "low"⟩
      = [Event.details_changed 3 "old" 42] :=
  post_timeline_events_details_changed 42
    ⟨7, "old", "todo", true, 1, 3, 2, none, "low"⟩
    ⟨7, "new", "todo", true, 1, 3, 2, none, "low"⟩ rfl rfl rfl

/-- C5: when status and assignee_id both differ while priority does not, the
event mapper emits exactly two events, in order status-changed then
assignee-changed, each carrying its own old and new value, and no
details-changed event; and in general, whenever at least one tracked field
differs, the number of emitted events equals the number of differing
tracked fields — one event per difference, never merged. -/
theorem post_timeline_events_status_and_assignee (author_id : Int)
    (o u : Task) (hs : o.status ≠ u.status) (hp : o.priority = u.priority)
    (ha : o.assignee_id ≠ u.assignee_id) :
    post_timeline_events author_id o u
        = [Event.status_changed o.story_id o.title author_id o.status
             u.status,
           Event.assignee_changed o.story_id o.title author_id
             o.assignee_id u.assignee_id] ∧
      ∀ o2 u2 : Task,
        o2.status ≠ u2.status ∨ o2.priority ≠ u2.priority ∨
            o2.assignee_id ≠ u2.assignee_id →
          (post_timeline_events author_id o2 u2).length
            = (if o2.status ≠ u2.status then 1 else 0)
              + (if o2.priority ≠ u2.priority then 1 else 0)
              + (if o2.assignee_id ≠ u2.assignee_id then 1 else 0) := by
  refine ⟨by simp [post_timeline_events, hs, hp, ha], ?_⟩
  intro o2 u2 h
  by_cases h1 : o2.status = u2.status <;>
    by_cases h2 : o2.priority = u2.priority <;>
      by_cases h3 : o2.assignee_id = u2.assignee_id <;>
        simp [post_timeline_events, h1, h2, h3] at h ⊢

/-- Witness for C5 at a concrete input: status moves from todo to review and
the assignee from user 8 to user 9, priority untouched. -/
theorem post_timeline_events_status_and_assignee_witness :
    post_timeline_events 42 ⟨7, "t", "todo", true, 1, 3, 2, some 8, "low"⟩
        ⟨7, "t", "review", true, 1, 3, 2, some 9, "low"⟩
      = [Event.status_changed 3 "t" 42 "todo" "review",
         Event.assignee_changed 3 "t" 42 (some 8) (some 9)] :=
  (post_timeline_events_status_and_assignee 42
    ⟨7, "t", "todo", true, 1, 3, 2, some 8, "low"⟩
    ⟨7, "t", "review", true, 1, 3, 2, some 9, "low"⟩
    (by decide) rfl (by decide)).1

/-- C6: the stored task's `creator_id` is the authenticated user's id, and
two create runs whose request bodies differ only in the client-supplied
`creator_id` produce identical results (stored task, store, events) — the
client-supplied value is never consulted. -/
theorem post_creator_id_from_identity (uid : Int) (store : Store)
    (t : Task) (c1 c2 : Int) :
    ((post uid store t).1).creator_id = uid ∧
      post uid store { t with creator_id := c1 }
        = post uid store { t with creator_id := c2 } := by
  exact ⟨rfl, rfl⟩

/-- C7: deleting an existing task produces exactly this effect trace — one
emission of a `task_deleted` event carrying the pre-deletion snapshot's
`story_id` and title, followed (strictly after) by the persistence delete —
and the response status is 204. -/
theorem delete_emits_before_remove (uid : Int) (store : Store)
    (task_id : Int) (t : Task) (h : task_get store task_id = some t) :
    delete uid store task_id
      = some ([Effect.emit (Event.task_deleted t.story_id t.title uid),
               Effect.dbDelete task_id],
              task_delete store task_id, 204) := by
  simp [delete, h]

/-- Witness for C7 at a concrete input: deleting task 7, which belongs to
story 3. -/
theorem delete_emits_before_remove_witness :
    delete 42 [⟨7, "t", "todo", true, 1, 3, 1, none, "medium"⟩] 7
      = some ([Effect.emit (Event.task_deleted 3 "t" 42),
               Effect.dbDelete 7],
              task_delete [⟨7, "t", "todo", true, 1, 3, 1, none, "medium"⟩]
                7, 204) :=
  delete_emits_before_remove 42
    [⟨7, "t", "todo", true, 1, 3, 1, none, "medium"⟩] 7
    ⟨7, "t", "todo", true, 1, 3, 1, none, "medium"⟩ rfl

/-- C8: `get_one` returns the task whenever the store resolves the id, and
otherwise fails with a client-facing error of status 404; and the `NotFound`
exception kind carries status 404 for every message. -/
theorem get_one_found_or_404 (store : Store) (task_id : Int) :
    (∀ t : Task, task_get store task_id = some t →
        get_one store task_id = Except.ok t) ∧
      (task_get store task_id = none →
        ∃ e : ApiError, get_one store task_id = Except.error e ∧
          e.status_code = 404) ∧
      ∀ m : Option String, (NotFound m).status_code = some 404 := by
  refine ⟨fun t h => by simp [get_one, h], fun h => ?_, fun m => rfl⟩
  exact ⟨⟨"Task %s not found", 404⟩, by simp [get_one, h], rfl⟩

/-- Witness for C8 at concrete inputs: id 5 resolves in a one-task store
and fails with a 404 error in the empty store. -/
theorem get_one_found_or_404_witness :
    get_one [⟨5, "w", "todo", true, 1, 2, 3, none, "low"⟩] 5
        = Except.ok ⟨5, "w", "todo", true, 1, 2, 3, none, "low"⟩ ∧
      ∃ e : ApiError, get_one [] 5 = Except.error e ∧
        e.status_code = 404 :=
  ⟨(get_one_found_or_404 [⟨5, "w", "todo", true, 1, 2, 3, none, "low"⟩]
      5).1 ⟨5, "w", "todo", true, 1, 2, 3, none, "low"⟩ rfl,
   (get_one_found_or_404 [] 5).2.1 rfl⟩

/-- C9: with no `story_id` filter, a supplied marker is always discarded —
even when it resolves to an existing task, since a stored task's integer
`story_id` never equals the absent filter value — so the call behaves as if
no marker were supplied and the `X-Marker` header is never set. -/
theorem get_all_no_story_filter_marker_ignored (conf : Conf)
    (store : Store) (assignee_id marker limit : Option Int)
    (sort_field sort_dir : String) :
    get_all conf store none assignee_id marker limit sort_field sort_dir
        = get_all conf store none assignee_id none limit sort_field
          sort_dir ∧
      (get_all conf store none assignee_id marker limit sort_field
        sort_dir).xMarker = none := by
  cases marker with
  | none => exact ⟨rfl, rfl⟩
  | some m =>
    cases ht : task_get store m with
    | none => constructor <;> simp [get_all, ht]
    | some t => constructor <;> simp [get_all, ht]

/-- C10: the delete handler has no guarded not-found branch: it reads
`story_id` and title from the fetched snapshot unconditionally, so it is
well-defined (some effect trace, store and status) exactly when the id
resolves, and on a missing id it is undefined — an unhandled attribute
error in the source, not a 404 response. -/
theorem delete_undefined_iff_missing (uid : Int) (store : Store)
    (task_id : Int) :
    delete uid store task_id = none ↔ task_get store task_id = none := by
  unfold delete
  cases h : task_get store task_id <;> simp

end Storyboard
